import Mathlib

/-!
Verification of the spreadsheet structural-analysis engine
(`src/spreadsheet/analyzer.py`): data model, header detection, formula
extraction, style mapping, data-type inference, complexity scoring and
the orchestrator's error flow, embedded shallowly in Lean.
-/

namespace Analyzer

/-- A Python value as it can appear in a spreadsheet cell, as far as the
analyzer observes it.  The analyzer only ever inspects a value through
`isinstance` checks (`int`/`float`, `bool`, `pd.Timestamp`, `str`) and through
its `str(...)` form, so floats, timestamps and other objects carry their
`str(...)` rendering directly. -/
inductive PyValue where
  | pyInt (n : Int)
  | pyFloat (s : String)
  | pyBool (b : Bool)
  | pyTimestamp (s : String)
  | pyStr (s : String)
  | pyOther (s : String)
deriving DecidableEq, Repr

/-- Python `str(value)`. `str` of an int renders like Lean's `toString` on
`Int`; booleans render as `True`/`False`; the other constructors carry their
rendering. -/
def strForm : PyValue → String
  | .pyInt n => toString n
  | .pyFloat s => s
  | .pyBool b => if b then ("True") else ("False")
  | .pyTimestamp s => s
  | .pyStr s => s
  | .pyOther s => s

/-- Python `isinstance(value, (int, float))`.  In Python `bool` is a subclass
of `int`, so native booleans satisfy this check as well. -/
def isNumberInstance : PyValue → Bool
  | .pyInt _ => true
  | .pyFloat _ => true
  | .pyBool _ => true
  | _ => false

/-- Python `isinstance(value, pd.Timestamp)`. -/
def isTimestampInstance : PyValue → Bool
  | .pyTimestamp _ => true
  | _ => false

/-- Python `isinstance(value, bool)`. -/
def isBoolInstance : PyValue → Bool
  | .pyBool _ => true
  | _ => false

/-- Python `s.count(c)` for a single-character needle. -/
def countChar (s : String) (c : Char) : Nat :=
  s.data.count c

/-- The four type counters kept by `_infer_data_type`
(`type_counts = {'number':0, 'date':0, 'text':0, 'boolean':0}`). -/
structure TypeCounts where
  number : Nat
  date : Nat
  text : Nat
  boolean : Nat
deriving DecidableEq, Repr

/-- One iteration of the classification loop in `_infer_data_type`:
`if isinstance(value, (int, float)): number += 1`
`elif isinstance(value, pd.Timestamp) or str(value).count('/') == 2 or
 str(value).count('-') == 2: date += 1`
`elif isinstance(value, bool): boolean += 1`
`else: text += 1`. -/
def classifyValue (v : PyValue) (tc : TypeCounts) : TypeCounts :=
  if isNumberInstance v then
    { tc with number := tc.number + 1 }
  else if isTimestampInstance v || (countChar (strForm v) '/' == 2)
      || (countChar (strForm v) '-' == 2) then
    { tc with date := tc.date + 1 }
  else if isBoolInstance v then
    { tc with boolean := tc.boolean + 1 }
  else
    { tc with text := tc.text + 1 }

/-- The counting loop of `_infer_data_type` over the sampled values. -/
def countTypes (values : List PyValue) : TypeCounts :=
  values.foldl (fun tc v => classifyValue v tc) ⟨0, 0, 0, 0⟩

/-- Python `max(type_counts, key=type_counts.get)`: `max` scans the dict keys
in insertion order (`number`, `date`, `text`, `boolean`) and keeps the current
best unless a later key's count is strictly greater, so on ties the earliest
key wins. -/
def maxTypeKey (tc : TypeCounts) : String :=
  (([("date", tc.date), ("text", tc.text), ("boolean", tc.boolean)]).foldl
    (fun best p => if p.2 > best.2 then p else best) ("number", tc.number)).1

/-- Embeds `_infer_data_type`: `"empty"` for an empty sample, otherwise the
predominant counter's name. -/
def inferDataType (values : List PyValue) : String :=
  if values.isEmpty then ("empty") else maxTypeKey (countTypes values)

/-- A loaded worksheet as the analyzer reads it: reported dimensions
(`max_row`, `max_column`) and random-access cell lookup by 1-based
`(row, column)`, yielding the cell's value (`none` for a null cell). -/
structure Worksheet where
  maxRow : Nat
  maxCol : Nat
  cell : Nat → Nat → Option PyValue

/-- Python `s.strip()`: drop whitespace from both ends. -/
def pyStrip (s : String) : String :=
  ⟨((s.data.dropWhile Char.isWhitespace).reverse.dropWhile Char.isWhitespace).reverse⟩

/-- Python truthiness of a string: non-empty. -/
def pyTruthy (s : String) : Bool :=
  !s.data.isEmpty

/-- The string a cell contributes to `row_values` in `_detect_headers`:
`""` for a null cell; for a string value with non-blank strip, the stripped
text; otherwise `str(value)` (note a whitespace-only string falls to the
`str(value)` branch and stays whitespace). -/
def rowValueOf : Option PyValue → String
  | none => ""
  | some (.pyStr s) => if pyTruthy (pyStrip s) then pyStrip s else s
  | some v => strForm v

/-- Whether a cell sets the `has_text` flag in `_detect_headers`:
`isinstance(value, str) and value.strip()`. -/
def cellHasText : Option PyValue → Bool
  | some (.pyStr s) => pyTruthy (pyStrip s)
  | _ => false

/-- The `row_values` list built for one row (columns `1..max_column`). -/
def rowValues (ws : Worksheet) (r : Nat) : List String :=
  (List.range ws.maxCol).map (fun j => rowValueOf (ws.cell r (j + 1)))

/-- The `has_text` flag for one row. -/
def rowHasText (ws : Worksheet) (r : Nat) : Bool :=
  (List.range ws.maxCol).any (fun j => cellHasText (ws.cell r (j + 1)))

/-- Python `s.replace('.', '').replace(',', '')`. -/
def stripDotComma (s : String) : String :=
  ⟨s.data.filter (fun ch => ch ≠ '.' && ch ≠ ',')⟩

/-- Python `s.isdigit()`: non-empty and all digits. -/
def pyIsDigit (s : String) : Bool :=
  !s.data.isEmpty && s.data.all Char.isDigit

/-- The predicate counted by `text_count` in `_detect_headers`:
`val and not str(val).replace('.', '').replace(',', '').isdigit()`. -/
def isTextVal (val : String) : Bool :=
  pyTruthy val && !pyIsDigit (stripDotComma val)

/-- The `text_count` of a row's values. -/
def textCount (vals : List String) : Nat :=
  (vals.filter isTextVal).length

/-- Embeds `len([v for v in row_values if v])`: the number of non-empty values. -/
def nonEmptyCount (vals : List String) : Nat :=
  (vals.filter pyTruthy).length

/-- Whether a row passes both guards in `_detect_headers`:
`has_text and any(val for val in row_values)` and then
`text_count >= len([v for v in row_values if v]) * 0.7`. -/
def rowQualifies (ws : Worksheet) (r : Nat) : Bool :=
  let vals := rowValues ws r
  rowHasText ws r && vals.any pyTruthy
    && decide ((textCount vals : ℚ) ≥ (nonEmptyCount vals : ℚ) * (7 / 10))

/-- The scanned window of `_detect_headers`:
`range(1, min(6, max_row + 1))`, i.e. rows `1..min(5, max_row)`. -/
def headerScanRows (ws : Worksheet) : List Nat :=
  (List.range (min 5 ws.maxRow)).map (· + 1)

/-- The scanning loop of `_detect_headers`: first qualifying row wins, its
non-empty values become the headers; otherwise `([], None)`. -/
def detectHeadersAux (ws : Worksheet) : List Nat → List String × Option Nat
  | [] => ([], none)
  | r :: rs =>
    if rowQualifies ws r then
      ((rowValues ws r).filter pyTruthy, some r)
    else detectHeadersAux ws rs

/-- Embeds `_detect_headers`. -/
def detectHeaders (ws : Worksheet) : List String × Option Nat :=
  detectHeadersAux ws (headerScanRows ws)

/-- Helper for `openpyxl.utils.get_column_letter`: bijective base-26 digits,
accumulating from the least significant side.  The first argument is fuel;
the remaining index strictly decreases, so fuel equal to the starting index
never runs out. -/
def columnLetterAux : Nat → Nat → List Char → List Char
  | 0, _, acc => acc
  | _ + 1, 0, acc => acc
  | fuel + 1, m + 1, acc =>
    columnLetterAux fuel (m / 26) (Char.ofNat (65 + m % 26) :: acc)

/-- Embeds `openpyxl.utils.get_column_letter`: 1 ↦ "A", 26 ↦ "Z", 27 ↦ "AA". -/
def columnLetter (n : Nat) : String :=
  ⟨columnLetterAux n n []⟩

/-- The sampling loop of `_detect_data_types` for one column: the non-null
values of rows `header_row + 1 .. header_row + sample_rows`.  (In Python a
non-positive `sample_rows` makes the `range` empty; truncated subtraction on
`Nat` gives the same empty sample below.) -/
def sampleColumn (ws : Worksheet) (headerRow sampleRows colNum : Nat) :
    List PyValue :=
  (List.range sampleRows).filterMap (fun i => ws.cell (headerRow + 1 + i) colNum)

/-- The per-column body of the loop in `_detect_data_types`: collect the
column's sampled non-null values; if none were sampled the column is
omitted, otherwise it maps to the inferred predominant type. -/
def columnEntry (ws : Worksheet) (headerRow sampleRows j : Nat) :
    Option (String × String) :=
  let values := sampleColumn ws headerRow sampleRows (j + 1)
  if values.isEmpty then none
  else some (columnLetter (j + 1), inferDataType values)

/-- Embeds `_detect_data_types`: empty when no header row (`if not header_row` —
Python also treats a zero row index as absent), otherwise one entry per
column whose sample of `min(10, max_row - header_row)` rows below the header
contains at least one non-null value. -/
def detectDataTypes (ws : Worksheet) (headerRow : Option Nat) :
    List (String × String) :=
  match headerRow with
  | none => []
  | some hr =>
    if hr = 0 then []
    else
      (List.range ws.maxCol).filterMap
        (columnEntry ws hr (min 10 (ws.maxRow - hr)))

/-- An openpyxl color: its `rgb` attribute may be `None`. -/
structure ColorR where
  rgb : Option String
deriving DecidableEq, Repr

/-- An openpyxl font as the analyzer reads it. -/
structure FontR where
  name : Option String
  size : Option ℚ
  bold : Option Bool
  italic : Option Bool
  color : Option ColorR
deriving DecidableEq, Repr

/-- An openpyxl fill: only `start_color` is consulted. -/
structure FillR where
  startColor : Option ColorR
deriving DecidableEq, Repr

/-- An openpyxl border: presence of each of the four sides. -/
structure BorderR where
  left : Bool
  right : Bool
  top : Bool
  bottom : Bool
deriving DecidableEq, Repr

/-- An openpyxl alignment: raw horizontal/vertical values. -/
structure AlignR where
  horizontal : Option String
  vertical : Option String
deriving DecidableEq, Repr

/-- The style-bearing attributes of a cell consulted by
`_extract_cell_style` and `_has_custom_style`. -/
structure StyleSource where
  font : Option FontR := none
  fill : Option FillR := none
  border : Option BorderR := none
  alignment : Option AlignR := none
  numberFormat : String := "General"
deriving DecidableEq, Repr

/-- Python `str(color.rgb)`: `str(None)` is the string `"None"`. -/
def rgbStr : Option String → String
  | some s => s
  | none => "None"

/-- Python truthiness of an optional string attribute. -/
def optStrTruthy : Option String → Bool
  | some s => !s.isEmpty
  | none => false

/-- The normalized style record built by `_extract_cell_style`
(dataclass `CellStyle`, all fields defaulted). -/
structure CellStyle where
  fontName : Option String := none
  fontSize : Option ℚ := none
  fontBold : Bool := false
  fontItalic : Bool := false
  fontColor : Option String := none
  fillColor : Option String := none
  borderStyle : Option String := none
  alignmentHorizontal : Option String := none
  alignmentVertical : Option String := none
  numberFormat : Option String := none
deriving DecidableEq, Repr

/-- Embeds `_extract_cell_style`: fill the defaulted `CellStyle` from the font,
fill, border and alignment attributes present, then always record the number
format. -/
def extractCellStyle (src : StyleSource) : CellStyle :=
  let st : CellStyle := {}
  let st :=
    match src.font with
    | none => st
    | some f =>
      let st := { st with fontName := f.name, fontSize := f.size,
                          fontBold := f.bold.getD false,
                          fontItalic := f.italic.getD false }
      match f.color with
      | some c => { st with fontColor := some (rgbStr c.rgb) }
      | none => st
  let st :=
    match src.fill with
    | some fl =>
      match fl.startColor with
      | some c => { st with fillColor := some (rgbStr c.rgb) }
      | none => st
    | none => st
  let st :=
    match src.border with
    | some b =>
      if b.left || b.right || b.top || b.bottom then
        { st with borderStyle := some ("custom") }
      else st
    | none => st
  let st :=
    match src.alignment with
    | some a => { st with alignmentHorizontal := a.horizontal,
                          alignmentVertical := a.vertical }
    | none => st
  { st with numberFormat := some src.numberFormat }

/-- Embeds `_has_custom_style`: bold, italic or size ≠ 11; or a fill start color
whose `str(rgb)` differs from the all-zero sentinel; or any border side; or
any alignment set. -/
def hasCustomStyle (src : StyleSource) : Bool :=
  (match src.font with
   | some f => f.bold.getD false || f.italic.getD false
      || decide (f.size ≠ some (11 : ℚ))
   | none => false) ||
  (match src.fill with
   | some fl =>
     match fl.startColor with
     | some c => decide (rgbStr c.rgb ≠ "00000000")
     | none => false
   | none => false) ||
  (match src.border with
   | some b => b.left || b.right || b.top || b.bottom
   | none => false) ||
  (match src.alignment with
   | some a => optStrTruthy a.horizontal || optStrTruthy a.vertical
   | none => false)

/-- A cell as visited by the style-mapping pass: coordinate, value and
style-bearing attributes. -/
structure CellR where
  row : Nat
  col : Nat
  coordinate : String
  value : Option PyValue
  dataType : String := "n"
  styleSrc : StyleSource := {}
deriving DecidableEq, Repr

/-- Embeds `_map_cell_styles` over the sheet's cells (row-major, as `iter_rows`
yields them): keep exactly the cells with a non-null value or a custom
style, keyed by coordinate. -/
def mapCellStyles (cells : List CellR) : List (String × CellStyle) :=
  cells.filterMap (fun c =>
    if c.value.isSome || hasCustomStyle c.styleSrc then
      some (c.coordinate, extractCellStyle c.styleSrc)
    else none)

/-- A raised Python exception, reduced to its message. -/
structure PyErr where
  msg : String
deriving DecidableEq, Repr

/-- The `CellType` enum. -/
inductive CellType where
  | header
  | data
  | formula
  | empty
  | merged
deriving DecidableEq, Repr

/-- The `CellInfo` dataclass. -/
structure CellInfo where
  row : Nat
  column : Nat
  address : String
  value : Option PyValue
  cellType : CellType
  style : CellStyle
  formula : Option PyValue := none
  isMerged : Bool := false
  mergeRange : Option String := none
deriving DecidableEq, Repr

/-- A cell as visited during formula extraction, where reading `cell.value`
may raise inside the library (the spec's CellReadAnomaly). -/
structure FCell where
  row : Nat
  col : Nat
  coordinate : String
  dataType : String
  readValue : Except PyErr (Option PyValue)
  styleSrc : StyleSource := {}

/-- Embeds `_extract_formulas`: walk all cells; for each with data-type marker
`'f'` read the formula text and emit a FORMULA `CellInfo`.  The source has
no per-cell exception handling, so a failing read propagates and aborts the
whole scan — modelled by the `Except` monad's fail-fast bind. -/
def extractFormulas (cells : List FCell) : Except PyErr (List CellInfo) :=
  cells.foldlM (fun acc c =>
    if c.dataType = "f" then do
      let v ← c.readValue
      pure (acc ++ [{ row := c.row, column := c.col, address := c.coordinate,
                      value := v, cellType := CellType.formula,
                      style := extractCellStyle c.styleSrc, formula := v }])
    else pure acc) []

/-- The six-key visual-elements catalog built by `_catalog_visual_elements`. -/
structure VisualElements where
  charts : List String := []
  images : List String := []
  shapes : List String := []
  conditionalFormatting : List (String × Nat) := []
  dataValidation : List (String × Option String) := []
  hyperlinks : List (String × String) := []
deriving DecidableEq, Repr

/-- Embeds `sum(len(elements) for elements in sheet.visual_elements.values())`. -/
def visualCount (ve : VisualElements) : Nat :=
  ve.charts.length + ve.images.length + ve.shapes.length
    + ve.conditionalFormatting.length + ve.dataValidation.length
    + ve.hyperlinks.length

/-- The `SheetAnalysis` dataclass. -/
structure SheetAnalysis where
  name : String
  rowCount : Nat := 0
  columnCount : Nat := 0
  headers : List String := []
  headerRow : Option Nat := none
  dataRange : Option String := none
  formulas : List CellInfo := []
  mergedCells : List String := []
  stylesMap : List (String × CellStyle) := []
  visualElements : VisualElements := {}
  dataTypes : List (String × String) := []
deriving DecidableEq, Repr

/-- The `SpreadsheetAnalysis` dataclass (the file-discovery metadata and the
wall-clock timestamp are environment inputs and are not modelled). -/
structure SpreadsheetAnalysis where
  sheets : List SheetAnalysis := []
  globalStyles : List (String × CellStyle) := []
  hasFormulas : Bool := false
  hasMergedCells : Bool := false
  complexityScore : Nat := 0
deriving DecidableEq, Repr

/-- Embeds `_calculate_complexity_score`, statement by statement. -/
def calculateComplexityScore (analysis : SpreadsheetAnalysis) : Nat :=
  let score := 0
  let score := score + min (analysis.sheets.length * 5) 20
  let totalFormulas := (analysis.sheets.map (fun s => s.formulas.length)).sum
  let score := score + min (totalFormulas * 2) 30
  let totalMerged := (analysis.sheets.map (fun s => s.mergedCells.length)).sum
  let score := score + min (totalMerged * 3) 20
  let score := analysis.sheets.foldl
    (fun sc sheet => sc + min (visualCount sheet.visualElements * 2) 15) score
  let totalStyles := (analysis.sheets.map (fun s => s.stylesMap.length)).sum
  let score := score + min (totalStyles / 10) 15
  min score 100

/-- Embeds `_extract_global_styles`: the first sheet's styles map, else empty. -/
def extractGlobalStyles (analysis : SpreadsheetAnalysis) :
    List (String × CellStyle) :=
  match analysis.sheets with
  | [] => []
  | s :: _ => s.stylesMap

/-- The wrapped error raised by `analyze_spreadsheet`
(`AnalysisException(f"Falha na análise: {str(e)}")`). -/
structure AnalysisException where
  msg : String
deriving DecidableEq, Repr

/-- Embeds `analyze_spreadsheet`.  The whole body — loading the workbook, the
per-sheet loop, scoring and global-style extraction — sits inside one
`try`; the single `except Exception` clause wraps whatever was raised into
an `AnalysisException`.  `openResult` models `openpyxl.load_workbook`
(yielding the sheet sources in file order) and `analyzeSheet` models
`_analyze_sheet`, each able to raise. -/
def analyzeSpreadsheet {σ : Type} (openResult : Except PyErr (List σ))
    (analyzeSheet : σ → Except PyErr SheetAnalysis) :
    Except AnalysisException SpreadsheetAnalysis :=
  let body : Except PyErr SpreadsheetAnalysis := do
    let sheetSources ← openResult
    let sheets ← sheetSources.mapM analyzeSheet
    let analysis : SpreadsheetAnalysis :=
      { sheets := sheets
        hasFormulas := sheets.any (fun s => !s.formulas.isEmpty)
        hasMergedCells := sheets.any (fun s => !s.mergedCells.isEmpty) }
    let analysis :=
      { analysis with complexityScore := calculateComplexityScore analysis }
    let analysis :=
      { analysis with globalStyles := extractGlobalStyles analysis }
    pure analysis
  match body with
  | .ok a => .ok a
  | .error e => .error { msg := "Falha na análise: " ++ e.msg }

/-- The total number of classified values across the four counters. -/
def countsTotal (tc : TypeCounts) : Nat :=
  tc.number + tc.date + tc.text + tc.boolean

/-- The largest of the four counters. -/
def maxCount (tc : TypeCounts) : Nat :=
  max tc.number (max tc.date (max tc.text tc.boolean))

/-- Spec-side description of the tie-break: the earliest category in the
fixed order `number`, `date`, `text`, `boolean` whose counter attains the
maximum.  To be compared against `maxTypeKey`, which embeds the source's
`max(type_counts, key=type_counts.get)`. -/
def firstMaximalCategory (tc : TypeCounts) : String :=
  if tc.number = maxCount tc then ("number")
  else if tc.date = maxCount tc then ("date")
  else if tc.text = maxCount tc then ("text")
  else ("boolean")

/-- A one-row worksheet whose row has exactly 7 non-numeric text values out
of 10 non-empty values: the 70% boundary case. -/
def wsSevenOfTen : Worksheet :=
  { maxRow := 1, maxCol := 10,
    cell := fun r c =>
      if r = 1 then
        if c ≤ 7 then some (PyValue.pyStr ("h" ++ toString c))
        else some (PyValue.pyInt (Int.ofNat c))
      else none }

/-- A worksheet whose rows 1–5 hold only native numbers and whose row 6
holds a clear textual header. -/
def wsRowSixHeader : Worksheet :=
  { maxRow := 6, maxCol := 2,
    cell := fun r c =>
      if r ≤ 5 then some (PyValue.pyInt (Int.ofNat (r * 10 + c)))
      else if r = 6 then some (PyValue.pyStr ("col" ++ toString c))
      else none }

/-- A worksheet with a header in row 1, one numeric value under column A,
and nothing under column B. -/
def wsDataCol : Worksheet :=
  { maxRow := 3, maxCol := 2,
    cell := fun r c =>
      if r = 1 then some (PyValue.pyStr ("h" ++ toString c))
      else if r = 2 ∧ c = 1 then some (PyValue.pyInt 5)
      else none }

/-- One plainly-styled cell holding a value. -/
def cellsOneValued : List CellR :=
  [{ row := 1, col := 1, coordinate := "A1", value := some (PyValue.pyInt 7) }]

/-- A sheet's cells for the formula scan where the middle formula cell
raises on reading its formula text. -/
def badFormulaSheet : List FCell :=
  [{ row := 1, col := 1, coordinate := "A1", dataType := "f",
     readValue := Except.ok (some (PyValue.pyStr ("=SUM(B1:B3)"))) },
   { row := 2, col := 1, coordinate := "A2", dataType := "f",
     readValue := Except.error { msg := "cell storage corrupted" } },
   { row := 3, col := 1, coordinate := "A3", dataType := "f",
     readValue := Except.ok (some (PyValue.pyStr ("=A1*2"))) }]

theorem rowQualifies_eq_false_of_no_text (ws : Worksheet) (r : Nat)
    (h : rowHasText ws r = false) : rowQualifies ws r = false := by
  unfold rowQualifies
  simp [h]

theorem rowValues_any_of_hasText (ws : Worksheet) (r : Nat)
    (h : rowHasText ws r = true) : (rowValues ws r).any pyTruthy = true := by
  unfold rowHasText at h
  rw [List.any_eq_true] at h
  obtain ⟨j, hj, hc⟩ := h
  rw [List.any_eq_true]
  refine ⟨rowValueOf (ws.cell r (j + 1)), List.mem_map.mpr ⟨j, hj, rfl⟩, ?_⟩
  revert hc
  cases hcell : ws.cell r (j + 1) with
  | none => simp [cellHasText]
  | some v =>
    cases v <;> simp [cellHasText, rowValueOf] <;> intro hc <;> simp [hc]

theorem detectHeadersAux_mem (ws : Worksheet) (l : List Nat) (r : Nat)
    (h : (detectHeadersAux ws l).2 = some r) : r ∈ l := by
  induction l with
  | nil => simp [detectHeadersAux] at h
  | cons x xs ih =>
    by_cases hx : rowQualifies ws x = true
    · simp [detectHeadersAux, hx] at h
      simp [h]
    · simp only [Bool.not_eq_true] at hx
      simp only [detectHeadersAux, hx, Bool.false_eq_true, if_false] at h
      exact List.mem_cons_of_mem x (ih h)

theorem detectHeadersAux_none (ws : Worksheet) (l : List Nat)
    (h : ∀ r ∈ l, rowQualifies ws r = false) :
    detectHeadersAux ws l = ([], none) := by
  induction l with
  | nil => rfl
  | cons x xs ih =>
    have hx := h x (List.mem_cons_self x xs)
    simp only [detectHeadersAux, hx, Bool.false_eq_true, if_false]
    exact ih (fun r hr => h r (List.mem_cons_of_mem x hr))

theorem detectHeadersAux_first (ws : Worksheet) (l : List Nat)
    (hsort : List.Sorted (· < ·) l) (r : Nat) (hmem : r ∈ l)
    (hq : rowQualifies ws r = true)
    (hprev : ∀ rr ∈ l, rr < r → rowQualifies ws rr = false) :
    (detectHeadersAux ws l).2 = some r := by
  induction l with
  | nil => cases hmem
  | cons x xs ih =>
    rw [List.sorted_cons] at hsort
    rcases List.mem_cons.mp hmem with heq | hmemxs
    · subst heq
      simp [detectHeadersAux, hq]
    · have hxr : x < r := hsort.1 r hmemxs
      have hxf : rowQualifies ws x = false :=
        hprev x (List.mem_cons_self x xs) hxr
      simp only [detectHeadersAux, hxf, Bool.false_eq_true, if_false]
      exact ih hsort.2 hmemxs
        (fun rr hrr hlt => hprev rr (List.mem_cons_of_mem x hrr) hlt)

theorem headerScanRows_sorted (ws : Worksheet) :
    List.Sorted (· < ·) (headerScanRows ws) := by
  unfold headerScanRows
  exact (List.pairwise_lt_range _).map _ (fun a b hab => by omega)

/-- C5: for a scanned row containing text, before which no row of the scan
window qualified, if the fraction of its non-empty values that are not pure
numeric strings (after stripping `.` and `,`) is at least 0.7 — boundary
inclusive — then the row is declared the header row. -/
theorem header_threshold_inclusive (ws : Worksheet) (r : Nat)
    (hmem : r ∈ headerScanRows ws)
    (hprev : ∀ rr ∈ headerScanRows ws, rr < r → rowQualifies ws rr = false)
    (htext : rowHasText ws r = true)
    (hfrac : (textCount (rowValues ws r) : ℚ)
      ≥ (nonEmptyCount (rowValues ws r) : ℚ) * (7 / 10)) :
    (detectHeaders ws).2 = some r := by
  have hq : rowQualifies ws r = true := by
    unfold rowQualifies
    simp only [Bool.and_eq_true]
    exact ⟨⟨htext, rowValues_any_of_hasText ws r htext⟩, decide_eq_true hfrac⟩
  exact detectHeadersAux_first ws (headerScanRows ws)
    (headerScanRows_sorted ws) r hmem hq hprev

/-- Witness for C5: a row with exactly 7 non-numeric text values out of 10
non-empty values — exactly the 70% boundary — is declared the header row. -/
theorem header_threshold_inclusive_witness :
    (detectHeaders wsSevenOfTen).2 = some 1 :=
  header_threshold_inclusive wsSevenOfTen 1 (by decide) (by decide) (by decide)
    (by
      have h1 : textCount (rowValues wsSevenOfTen 1) = 7 := by decide
      have h2 : nonEmptyCount (rowValues wsSevenOfTen 1) = 10 := by decide
      rw [h1, h2]
      norm_num)

/-- C6: the header detector scans only rows 1 through min(5, last row), so a
detected header row is a 1-based index between 1 and 5; and when none of the
first five rows contains text (all blank or purely numeric), the result is
empty headers and an absent header row, whatever the later rows hold. -/
theorem header_window_bound :
    (∀ (ws : Worksheet) (r : Nat),
      (detectHeaders ws).2 = some r → 1 ≤ r ∧ r ≤ 5) ∧
    (∀ ws : Worksheet, (∀ r ∈ headerScanRows ws, rowHasText ws r = false) →
      detectHeaders ws = ([], none)) := by
  constructor
  · intro ws r h
    have hm := detectHeadersAux_mem ws (headerScanRows ws) r h
    simp only [headerScanRows, List.mem_map, List.mem_range] at hm
    obtain ⟨j, hj, rfl⟩ := hm
    omega
  · intro ws h
    exact detectHeadersAux_none ws _
      (fun r hr => rowQualifies_eq_false_of_no_text ws r (h r hr))

/-- Witness for C6: a sheet whose rows 1–5 are all native numbers yields no
headers and no header row, even though row 6 holds a clear textual header. -/
theorem header_window_bound_witness :
    detectHeaders wsRowSixHeader = ([], none) :=
  header_window_bound.2 wsRowSixHeader (by decide)

theorem maxTypeKey_eq_firstMaximal (tc : TypeCounts) :
    maxTypeKey tc = firstMaximalCategory tc := by
  obtain ⟨n, d, t, b⟩ := tc
  unfold maxTypeKey firstMaximalCategory maxCount
  simp only [List.foldl]
  dsimp only
  split_ifs <;> first | rfl | (exfalso; omega)

theorem maxTypeKey_cases (tc : TypeCounts) :
    maxTypeKey tc = "number" ∨ maxTypeKey tc = "date"
      ∨ maxTypeKey tc = "text" ∨ maxTypeKey tc = "boolean" := by
  obtain ⟨n, d, t, b⟩ := tc
  unfold maxTypeKey
  simp only [List.foldl]
  split_ifs <;> simp

/-- C10: on a non-empty sample the inferred type is deterministic on ties —
it is the earliest category in the fixed order `number`, `date`, `text`,
`boolean` whose counter attains the maximal count. -/
theorem infer_tiebreak_order (values : List PyValue) (h : values ≠ []) :
    inferDataType values = firstMaximalCategory (countTypes values) := by
  unfold inferDataType
  rw [if_neg (by simpa using h)]
  exact maxTypeKey_eq_firstMaximal (countTypes values)

/-- Witness for C10: a column sampling one numeric value and one date-like
string — a tie between `number` and `date` — infers `"number"`. -/
theorem infer_tiebreak_order_witness :
    inferDataType [PyValue.pyInt 1, PyValue.pyStr ("1/2/3")] = "number" :=
  (infer_tiebreak_order [PyValue.pyInt 1, PyValue.pyStr ("1/2/3")]
    (by decide)).trans (by decide)

/-- C4 counterexample: a column whose only sampled value is the native
boolean `True` is inferred as `"number"`, not `"boolean"` — in Python
`bool` is a subclass of `int`, so the numeric check captures booleans
before the boolean branch is ever reached. -/
theorem boolean_column_counterexample :
    inferDataType [PyValue.pyBool true] = "number"
      ∧ inferDataType [PyValue.pyBool true] ≠ "boolean" := by
  decide

theorem countTypes_bools_go (bs : List Bool) (tc : TypeCounts) :
    (bs.map PyValue.pyBool).foldl (fun tc v => classifyValue v tc) tc
      = { tc with number := tc.number + bs.length } := by
  induction bs generalizing tc with
  | nil => simp
  | cons x xs ih =>
    obtain ⟨n, d, t, b⟩ := tc
    simp only [List.map_cons, List.foldl_cons, List.length_cons]
    rw [ih]
    simp only [classifyValue, isNumberInstance, if_true]
    simp
    omega

theorem maxTypeKey_only_number (n : Nat) :
    maxTypeKey ⟨n, 0, 0, 0⟩ = "number" := by
  unfold maxTypeKey
  simp

/-- C4 amended: each sampled non-null value increments exactly one of the
four counters: the `number` counter for numeric values — which in Python
include native booleans, `bool` being a subclass of `int`; the `date`
counter for non-numeric values that are native date/time objects or whose
string form contains exactly two `/` or exactly two `-` separators;
otherwise the `text` counter; the `boolean` counter is never incremented
(native booleans are caught by the numeric check first).  In particular a
column whose sampled non-null values are all native booleans is inferred as
`"number"`, not `"boolean"`. -/
theorem type_counter_classification :
    (∀ (v : PyValue) (tc : TypeCounts),
      countsTotal (classifyValue v tc) = countsTotal tc + 1) ∧
    (∀ (v : PyValue) (tc : TypeCounts),
      (classifyValue v tc).number
        = tc.number + (if isNumberInstance v = true then 1 else 0)) ∧
    (∀ (v : PyValue) (tc : TypeCounts),
      (classifyValue v tc).date
        = tc.date + (if isNumberInstance v = false
            ∧ (isTimestampInstance v || (countChar (strForm v) '/' == 2)
                || (countChar (strForm v) '-' == 2)) = true
            then 1 else 0)) ∧
    (∀ (v : PyValue) (tc : TypeCounts),
      (classifyValue v tc).text
        = tc.text + (if isNumberInstance v = false
            ∧ (isTimestampInstance v || (countChar (strForm v) '/' == 2)
                || (countChar (strForm v) '-' == 2)) = false
            then 1 else 0)) ∧
    (∀ (v : PyValue) (tc : TypeCounts),
      (classifyValue v tc).boolean = tc.boolean) ∧
    (∀ v : PyValue, isBoolInstance v = true → isNumberInstance v = true) ∧
    (∀ bs : List Bool, bs ≠ [] →
      inferDataType (bs.map PyValue.pyBool) = "number") := by
  refine ⟨?_, ?_, ?_, ?_, ?_, ?_, ?_⟩
  · intro v tc
    obtain ⟨n, d, t, b⟩ := tc
    unfold classifyValue countsTotal
    split_ifs <;> simp <;> omega
  · intro v tc
    obtain ⟨n, d, t, b⟩ := tc
    unfold classifyValue
    split_ifs <;> simp_all
  · intro v tc
    obtain ⟨n, d, t, b⟩ := tc
    cases v <;>
      simp [classifyValue, isNumberInstance, isTimestampInstance,
        isBoolInstance] <;>
      split_ifs <;> simp_all
  · intro v tc
    obtain ⟨n, d, t, b⟩ := tc
    cases v <;>
      simp [classifyValue, isNumberInstance, isTimestampInstance,
        isBoolInstance] <;>
      split_ifs <;> simp_all
  · intro v tc
    cases v <;>
      simp [classifyValue, isNumberInstance, isTimestampInstance,
        isBoolInstance] <;>
      split_ifs <;> rfl
  · intro v h
    cases v <;> simp_all [isBoolInstance, isNumberInstance]
  · intro bs hbs
    have hne : (bs.map PyValue.pyBool).isEmpty = false := by
      cases bs with
      | nil => exact absurd rfl hbs
      | cons x xs => rfl
    unfold inferDataType
    rw [hne]
    simp only [Bool.false_eq_true, if_false]
    unfold countTypes
    rw [countTypes_bools_go]
    simpa using maxTypeKey_only_number (0 + bs.length)

/-- Witness for C4 (amended): a column of the two native booleans is
inferred as `"number"`. -/
theorem type_counter_classification_witness :
    inferDataType [PyValue.pyBool true, PyValue.pyBool false] = "number" :=
  type_counter_classification.2.2.2.2.2.2 [true, false] (by decide)

theorem maxTypeKey_ne_empty (tc : TypeCounts) : maxTypeKey tc ≠ "empty" := by
  rcases maxTypeKey_cases tc with h | h | h | h <;> rw [h] <;> decide

theorem detectDataTypes_some (ws : Worksheet) (hr : Nat) (h : hr ≠ 0) :
    detectDataTypes ws (some hr) =
      (List.range ws.maxCol).filterMap
        (columnEntry ws hr (min 10 (ws.maxRow - hr))) := by
  simp only [detectDataTypes, if_neg h]

theorem columnEntry_eq_some (ws : Worksheet) (hr sr j : Nat) (c t : String) :
    columnEntry ws hr sr j = some (c, t) ↔
      sampleColumn ws hr sr (j + 1) ≠ []
        ∧ columnLetter (j + 1) = c
        ∧ inferDataType (sampleColumn ws hr sr (j + 1)) = t := by
  unfold columnEntry
  by_cases h : (sampleColumn ws hr sr (j + 1)).isEmpty = true
  · simp [h, List.isEmpty_iff.mp h]
  · have hne : sampleColumn ws hr sr (j + 1) ≠ [] := by
      simpa [List.isEmpty_iff] using h
    simp [h, hne]

/-- C7: a column letter is a key of `data_types` iff a header row was
detected and at least one of the up-to-10 sampled cells beneath the header
in that column is non-null; with no header the map is empty; and no column
is ever present with value `"empty"`. -/
theorem data_types_keys_iff (ws : Worksheet) (headerRow : Option Nat)
    (hpos : ∀ hr, headerRow = some hr → 1 ≤ hr) (col : String) :
    ((∃ t, (col, t) ∈ detectDataTypes ws headerRow) ↔
      ∃ hr, headerRow = some hr ∧
        ∃ j, j < ws.maxCol ∧ columnLetter (j + 1) = col ∧
          sampleColumn ws hr (min 10 (ws.maxRow - hr)) (j + 1) ≠ []) ∧
    detectDataTypes ws none = [] ∧
    (∀ t, (col, t) ∈ detectDataTypes ws headerRow → t ≠ "empty") := by
  refine ⟨?_, rfl, ?_⟩
  · cases headerRow with
    | none => simp [detectDataTypes]
    | some hr =>
      have h1 : 1 ≤ hr := hpos hr rfl
      rw [detectDataTypes_some ws hr (by omega)]
      constructor
      · rintro ⟨t, ht⟩
        rw [List.mem_filterMap] at ht
        obtain ⟨j, hj, hjt⟩ := ht
        rw [List.mem_range] at hj
        obtain ⟨hne, hcol, -⟩ := (columnEntry_eq_some ws hr _ j col t).mp hjt
        exact ⟨hr, rfl, j, hj, hcol, hne⟩
      · rintro ⟨hr', heq, j, hj, hcol, hne⟩
        have hee : hr = hr' := Option.some_injective _ heq
        subst hee
        refine ⟨inferDataType (sampleColumn ws hr (min 10 (ws.maxRow - hr))
          (j + 1)), ?_⟩
        rw [List.mem_filterMap]
        exact ⟨j, List.mem_range.mpr hj,
          (columnEntry_eq_some ws hr _ j col _).mpr ⟨hne, hcol, rfl⟩⟩
  · intro t ht
    cases headerRow with
    | none => simp [detectDataTypes] at ht
    | some hr =>
      have h1 : 1 ≤ hr := hpos hr rfl
      rw [detectDataTypes_some ws hr (by omega)] at ht
      rw [List.mem_filterMap] at ht
      obtain ⟨j, hj, hjt⟩ := ht
      obtain ⟨hne, -, hinf⟩ := (columnEntry_eq_some ws hr _ j col t).mp hjt
      rw [← hinf]
      unfold inferDataType
      rw [if_neg (by simpa using hne)]
      exact maxTypeKey_ne_empty _

/-- Witness for C7: with the header in row 1, column A (one numeric value
sampled below the header) is a key, and with no header the map is empty. -/
theorem data_types_keys_iff_witness :
    (∃ t, ("A", t) ∈ detectDataTypes wsDataCol (some 1)) ∧
    detectDataTypes wsDataCol none = [] := by
  have h := data_types_keys_iff wsDataCol (some 1)
    (fun hr heq => by injection heq with h2; omega) "A"
  refine ⟨h.1.mpr ⟨1, rfl, 0, by decide, by decide, by decide⟩, h.2.1⟩

/-- C8: every cell holding a non-null value appears as a key (its
coordinate) of `styles_map`, whether or not it is custom-styled; and every
key of `styles_map` names a cell that was non-empty or carried non-default
formatting. -/
theorem styles_map_coverage (cells : List CellR) :
    (∀ c ∈ cells, c.value.isSome = true →
      ∃ st, (c.coordinate, st) ∈ mapCellStyles cells) ∧
    (∀ k st, (k, st) ∈ mapCellStyles cells →
      ∃ c ∈ cells, c.coordinate = k ∧
        (c.value.isSome = true ∨ hasCustomStyle c.styleSrc = true)) := by
  constructor
  · intro c hc hv
    refine ⟨extractCellStyle c.styleSrc, ?_⟩
    unfold mapCellStyles
    rw [List.mem_filterMap]
    refine ⟨c, hc, ?_⟩
    rw [if_pos]
    rw [hv, Bool.true_or]
  · intro k st h
    unfold mapCellStyles at h
    rw [List.mem_filterMap] at h
    obtain ⟨c, hc, heq⟩ := h
    by_cases hcond : (c.value.isSome || hasCustomStyle c.styleSrc) = true
    · rw [if_pos hcond] at heq
      obtain ⟨h1, -⟩ := Prod.mk.injEq .. ▸ Option.some.injEq .. ▸ heq
      exact ⟨c, hc, h1, by simpa using hcond⟩
    · rw [if_neg hcond] at heq
      cases heq

/-- Witness for C8: a plainly-styled cell holding the value 7 appears in
the styles map under its coordinate. -/
theorem styles_map_coverage_witness :
    ∃ st, ("A1", st) ∈ mapCellStyles cellsOneValued :=
  (styles_map_coverage cellsOneValued).1
    { row := 1, col := 1, coordinate := "A1", value := some (PyValue.pyInt 7) }
    (by decide) (by decide)

/-- C3 is a code bug: `_extract_formulas` has no per-cell exception
handling, so one cell that raises while its formula text is read aborts the
whole scan — contrary to the spec, which requires the cell to be skipped
with a warning and extraction to continue.  Evaluating the embedded scan on
a sheet whose middle formula cell raises: the error propagates and no
formula list (not even the readable cells A1 and A3) is produced. -/
theorem formula_scan_aborts_on_bad_cell :
    extractFormulas badFormulaSheet
      = Except.error { msg := "cell storage corrupted" } := by
  rfl

theorem foldl_visual_sum (l : List SheetAnalysis) (init : Nat) :
    l.foldl (fun sc sheet => sc + min (visualCount sheet.visualElements * 2) 15)
        init
      = init + (l.map (fun s => min (visualCount s.visualElements * 2) 15)).sum := by
  induction l generalizing init with
  | nil => simp
  | cons x xs ih =>
    simp only [List.foldl_cons, List.map_cons, List.sum_cons, ih]
    omega

/-- C1: the complexity score is the sum — clamped to at most 100 — of: 5 per
sheet capped at 20; 2 per formula over all sheets capped at 30; 3 per merged
range over all sheets capped at 20; per sheet, 2 per visual element over the
six catalog categories capped at 15 for that sheet before summing; and the
total style-map entry count over all sheets divided by 10 (integer
division), capped at 15.  In particular the score is always at most 100. -/
theorem complexity_score_formula (analysis : SpreadsheetAnalysis) :
    calculateComplexityScore analysis =
      min (min (analysis.sheets.length * 5) 20
        + min ((analysis.sheets.map (fun s => s.formulas.length)).sum * 2) 30
        + min ((analysis.sheets.map (fun s => s.mergedCells.length)).sum * 3) 20
        + (analysis.sheets.map
            (fun s => min (visualCount s.visualElements * 2) 15)).sum
        + min ((analysis.sheets.map (fun s => s.stylesMap.length)).sum / 10) 15)
        100
      ∧ calculateComplexityScore analysis ≤ 100 := by
  constructor
  · simp only [calculateComplexityScore]
    rw [foldl_visual_sum]
    congr 1
    omega
  · exact Nat.min_le_right _ _

theorem analyzeSpreadsheet_open_error {σ : Type} (e : PyErr)
    (analyzeSheet : σ → Except PyErr SheetAnalysis) :
    analyzeSpreadsheet (Except.error e) analyzeSheet
      = Except.error { msg := "Falha na análise: " ++ e.msg } := rfl

theorem analyzeSpreadsheet_ok {σ : Type} (srcs : List σ)
    (analyzeSheet : σ → Except PyErr SheetAnalysis) :
    analyzeSpreadsheet (Except.ok srcs) analyzeSheet
      = match srcs.mapM analyzeSheet with
        | .error e => Except.error { msg := "Falha na análise: " ++ e.msg }
        | .ok sheets =>
          Except.ok (
            let analysis : SpreadsheetAnalysis :=
              { sheets := sheets
                hasFormulas := sheets.any (fun s => !s.formulas.isEmpty)
                hasMergedCells := sheets.any (fun s => !s.mergedCells.isEmpty) }
            let analysis :=
              { analysis with
                  complexityScore := calculateComplexityScore analysis }
            { analysis with globalStyles := extractGlobalStyles analysis }) := by
  unfold analyzeSpreadsheet
  dsimp only [bind, Except.bind]
  cases hm : srcs.mapM analyzeSheet with
  | error e => rfl
  | ok sheets => rfl

/-- C2 counterexample: the workbook opens fine (one sheet source) but the
per-sheet analysis raises; the orchestrator catches it and raises the
wrapped error — so a wrapped error is NOT raised exactly when the workbook
cannot be opened, and per-sheet failures do NOT propagate unwrapped. -/
theorem orchestrator_wraps_sheet_failure_counterexample :
    analyzeSpreadsheet (Except.ok [(0 : Nat)])
        (fun _ => Except.error { msg := "boom" })
      = Except.error { msg := "Falha na análise: boom" } := by
  rfl

/-- C2 amended: the single `try`/`except` of `analyze_spreadsheet` wraps
EVERY failure — an unopenable workbook and equally any failure inside
per-sheet analysis — into one `AnalysisException` carrying the original
message, returning no partial result; a result is returned only when
opening and every sheet's analysis succeeded. -/
theorem orchestrator_wraps_all_failures {σ : Type}
    (openResult : Except PyErr (List σ))
    (analyzeSheet : σ → Except PyErr SheetAnalysis) :
    (∀ e, openResult = Except.error e →
      analyzeSpreadsheet openResult analyzeSheet
        = Except.error { msg := "Falha na análise: " ++ e.msg }) ∧
    (∀ srcs e, openResult = Except.ok srcs →
      srcs.mapM analyzeSheet = Except.error e →
      analyzeSpreadsheet openResult analyzeSheet
        = Except.error { msg := "Falha na análise: " ++ e.msg }) ∧
    (∀ srcs sheets, openResult = Except.ok srcs →
      srcs.mapM analyzeSheet = Except.ok sheets →
      ∃ a, analyzeSpreadsheet openResult analyzeSheet = Except.ok a
        ∧ a.sheets = sheets) := by
  refine ⟨?_, ?_, ?_⟩
  · intro e he
    subst he
    exact analyzeSpreadsheet_open_error e analyzeSheet
  · intro srcs e hopen hmap
    subst hopen
    rw [analyzeSpreadsheet_ok, hmap]
  · intro srcs sheets hopen hmap
    subst hopen
    rw [analyzeSpreadsheet_ok, hmap]
    exact ⟨_, rfl, rfl⟩

/-- Witness for C2 (amended): an open failure is wrapped into the single
`AnalysisException` with the original message appended. -/
theorem orchestrator_wraps_all_failures_witness :
    analyzeSpreadsheet (Except.error { msg := "arquivo corrompido" }
        : Except PyErr (List Nat)) (fun _ => Except.ok { name := "Plan1" })
      = Except.error { msg := "Falha na análise: arquivo corrompido" } :=
  (orchestrator_wraps_all_failures
    (Except.error { msg := "arquivo corrompido" })
    (fun _ => Except.ok { name := "Plan1" })).1
    { msg := "arquivo corrompido" } rfl

end Analyzer
